import Mathlib

/-!
Shallow embedding of the mlbench master API views
(`src/mlbench/master/api/views.py`) together with the parts of the data
model (`api/models.py`, not part of the sources) that the views rely on,
and proofs about the embedded operations.

Conventions of the embedding:
* Django datetimes are modelled as integers (only their ordering matters
  to the code under study); `parse_datetime` is assumed to have already
  been applied to ingest payload dates.
* The Django ORM is modelled by an explicit `Store` of pods, runs and
  metrics.  `Model.objects.filter(...).first()` becomes an
  `Option`-returning lookup; `Model.objects.get(pk=...)` raises
  `DoesNotExist` when the primary key is absent, so its embedding
  returns `Except` and a failed lookup propagates as an exception
  (`Exn.DoesNotExist`), exactly as an uncaught exception would in the
  view code.
* An HTTP response is a status paired with whatever data the view
  returns; views that can raise return `Except Exn ...`.
-/

/-- Run lifecycle states (model `ModelRun.state`). -/
inductive RunState
  | CREATED
  | STARTED
  | FINISHED
  | FAILED
deriving DecidableEq, Repr

/-- A worker pod record.  `model_run` is the id of the owning run.
The owning-run foreign key is not in the sources (`api/models.py` is
absent); it is modelled from the spec: pods are created for a run and
are deleted when their owning run is deleted (cascade). -/
structure KubePod where
  name : String
  model_run : Nat
deriving DecidableEq, Repr

/-- A model-run record (model `ModelRun`).  `job_id` is the handle into
the external job backend; `finished_at` is `none` until the run is
terminal. -/
structure ModelRun where
  id : Nat
  name : String
  state : RunState
  num_workers : Nat
  cpu_limit : String
  network_bandwidth_limit : Nat
  job_id : Option String
  created_at : Int
  finished_at : Option Int
deriving DecidableEq, Repr

/-- A metric sample (model `KubeMetric`).  The owner reference is the
pair of nullable fields `pod` (a pod name) and `model_run` (a run id),
mirroring the two foreign keys the view code sets. -/
structure KubeMetric where
  name : String
  date : Int
  value : String
  metadata : String
  cumulative : Bool
  pod : Option String := none
  model_run : Option Nat := none
deriving DecidableEq, Repr, Inhabited

/-- The persistent store backing the Django ORM. -/
structure Store where
  pods : List KubePod
  runs : List ModelRun
  metrics : List KubeMetric
deriving DecidableEq, Repr

/-- HTTP status codes used by the views. -/
inductive HttpStatus
  | HTTP_200_OK
  | HTTP_201_CREATED
  | HTTP_204_NO_CONTENT
  | HTTP_400_BAD_REQUEST
  | HTTP_404_NOT_FOUND
  | HTTP_409_CONFLICT
deriving DecidableEq, Repr

/-- Exceptions that can escape a view: a failed `Model.objects.get`
(Django's `DoesNotExist`) and a failed `rq` `Job.fetch` (`NoSuchJobError`
or a connection error).  Uncaught, they surface as a server error, not
as one of the `HttpStatus` responses above. -/
inductive Exn
  | DoesNotExist
  | JobFetchFailed
deriving DecidableEq, Repr

deriving instance DecidableEq for Except

namespace Store

/-- `pod.metrics.all()`: the metrics whose owner is the given pod. -/
def podMetrics (s : Store) (p : KubePod) : List KubeMetric :=
  s.metrics.filter fun m => m.pod == some p.name

/-- `run.metrics.all()`: the metrics whose owner is the given run. -/
def runMetrics (s : Store) (r : ModelRun) : List KubeMetric :=
  s.metrics.filter fun m => m.model_run == some r.id

/-- `run.pods.all()`: the pods owned by the given run. -/
def runPods (s : Store) (r : ModelRun) : List KubePod :=
  s.pods.filter fun p => p.model_run == r.id

/-- `KubePod.objects.filter(name=n).first()`: `none` when no pod has
that name. -/
def podFilterFirst (s : Store) (n : String) : Option KubePod :=
  (s.pods.filter fun p => p.name == n).head?

/-- `ModelRun.objects.get(pk=pk)` seen as a lookup; the callers turn a
`none` into the raised `DoesNotExist`. -/
def runGet (s : Store) (pk : Nat) : Option ModelRun :=
  s.runs.find? fun r => r.id == pk

end Store

/-- Kernel-reducible decidability of the string order: the core
instance evaluates via `String.ltb`, which is defined by well-founded
recursion and does not reduce, while the order itself is the
lexicographic order on the underlying character lists, whose
decidability is structural.  (Python compares strings the same way,
lexicographically by code point.) -/
instance (priority := 2000) decStrDataLT (a b : String) : Decidable (a < b) :=
  decidable_of_iff (a.toList < b.toList) String.lt_iff_toList_lt.symm

instance (priority := 2000) decStrDataLE (a b : String) : Decidable (a ≤ b) :=
  decidable_of_iff (a.toList ≤ b.toList) String.le_iff_toList_le.symm

/-- Sorting by metric name, `sorted(metrics, key=lambda m: m.name)`:
Python's `sorted` is a stable ascending sort by the key. -/
def sortByName (metrics : List KubeMetric) : List KubeMetric :=
  metrics.insertionSort fun a b => a.name ≤ b.name

/-- Sorting by metric date, `sorted(g[1], key=lambda x: x.date)`. -/
def sortByDate (metrics : List KubeMetric) : List KubeMetric :=
  metrics.insertionSort fun a b => a.date ≤ b.date

/-- The filter in `KubeMetricsView.__format_result` (views.py lines
43-44), exactly as written there:
`(since is None or e.date > since) and (until is None or e.date > until)`.
Note the second conjunct compares with `>` against `until` as the
source does. -/
def keepEntry (since until' : Option Int) (e : KubeMetric) : Bool :=
  (match since with
    | none => true
    | some s => decide (s < e.date))
  && (match until' with
    | none => true
    | some u => decide (u < e.date))

/-- `itertools.groupby(·, key=lambda m: m.name)` on a list: splits the
list into maximal runs of adjacent elements with equal `name`, returning
`(key, group)` pairs.  (The views only ever apply it to a name-sorted
list, where adjacent grouping is a true partition by name.) -/
def groupRuns : List KubeMetric → List (String × List KubeMetric)
  | [] => []
  | m :: ms =>
    match groupRuns ms with
    | [] => [(m.name, [m])]
    | (k, g) :: rest =>
      if m.name == k then (k, m :: g) :: rest
      else (m.name, [m]) :: (k, g) :: rest

/-- `KubeMetricsView.__format_result` (views.py lines 38-48): group the
metrics by name (after sorting by name), and inside each group sort by
date and keep the entries passing `keepEntry`.  The serializer
(`KubeMetricsSerializer(e).data`) is modelled as the identity on the
metric record. -/
def formatResult (metrics : List KubeMetric) (since : Option Int)
    (until' : Option Int := none) : List (String × List KubeMetric) :=
  (groupRuns (sortByName metrics)).map fun g =>
    (g.1, (sortByDate g.2).filter (keepEntry since until'))

/-- The payload of `POST /api/metrics` as read by
`KubeMetricsView.create`; `pod_name`/`run_id` are `none` when the key is
absent from the request data, and `date` is the already-parsed
timestamp. -/
structure MetricPayload where
  pod_name : Option String := none
  run_id : Option Nat := none
  name : String
  date : Int
  value : String
  metadata : String
  cumulative : Bool
deriving DecidableEq, Repr

/-- `KubeMetricsView.create` (views.py lines 164-229).  The branch
structure is the source's `if 'pod_name' in d: ... elif 'run_id' in d:
... else: ...`.  In the run branch, `ModelRun.objects.get` raises
`DoesNotExist` for an unknown id, so the source's `if run is None:`
404 response is unreachable and the embedding propagates the
exception. -/
def KubeMetricsView.create (s : Store) (d : MetricPayload) :
    Except Exn (HttpStatus × Store) :=
  match d.pod_name with
  | some pname =>
    match s.podFilterFirst pname with
    | none => .ok (.HTTP_404_NOT_FOUND, s)
    | some pod =>
      let metric : KubeMetric :=
        { name := d.name, date := d.date, value := d.value,
          metadata := d.metadata, cumulative := d.cumulative,
          pod := some pod.name }
      .ok (.HTTP_201_CREATED, { s with metrics := s.metrics ++ [metric] })
  | none =>
    match d.run_id with
    | some rid =>
      match s.runGet rid with
      | none => .error .DoesNotExist
      | some run =>
        let metric : KubeMetric :=
          { name := d.name, date := d.date, value := d.value,
            metadata := d.metadata, cumulative := d.cumulative,
            model_run := some run.id }
        .ok (.HTTP_201_CREATED, { s with metrics := s.metrics ++ [metric] })
    | none => .ok (.HTTP_400_BAD_REQUEST, s)

/-- The archive produced by `KubeMetricsView.retrieve` for
`metric_type='run'` with the zip renderer (views.py lines 99-160):
a list of `(file name, grouped series)` entries.  JSON serialisation of
each entry's series is modelled as the identity. -/
def KubeMetricsView.retrieveZipRun (s : Store) (pk : Nat)
    (since : Option Int) :
    Except Exn (List (String × List (String × List KubeMetric))) :=
  match s.runGet pk with
  | none => .error .DoesNotExist
  | some run =>
    let metrics := s.runMetrics run
    let result := formatResult metrics since
    let pods := s.runPods run
    -- lines 134-135: the run branch replaces the caller-supplied window
    let since' := some run.created_at
    let until' := run.finished_at
    -- lines 137-146: the loop body assigns `pod_metrics = pod.metrics.all()`
    -- and then immediately rebinds `pod_metrics = __format_result(metrics,
    -- since, until)`, so the written file is computed from the run-level
    -- `metrics`, not from the pod's own metrics.
    let podFiles := pods.map fun pod =>
      (pod.name ++ ".json", formatResult metrics since' until')
    .ok (("result.json", result) :: podFiles)

/-- The metadata attached to a background job, as returned by
`rq`'s `Job.fetch(...).meta`: an opaque key-value dictionary. -/
structure JobMeta where
  meta : List (String × String)
deriving DecidableEq, Repr

/-- `ModelRunView.retrieve` (views.py lines 256-276), parametrised by the
external lookup `fetchJob` modelling `Job.fetch(run.job_id, redis_conn)`.
The source wraps neither the run lookup nor the job fetch in any
exception handling, so a failing fetch (unknown job, unreachable
backend) propagates out of the view; on success the run is returned
together with the job metadata merged into it (`run.job_metadata =
job.meta`). -/
def ModelRunView.retrieve (s : Store)
    (fetchJob : Option String → Except Exn JobMeta) (pk : Nat) :
    Except Exn (HttpStatus × ModelRun × JobMeta) :=
  match s.runGet pk with
  | none => .error .DoesNotExist
  | some run =>
    match fetchJob run.job_id with
    | .error e => .error e
    | .ok job => .ok (.HTTP_200_OK, run, job)

/-- Python's `str` of a `float` whose value is the integer `n`
(`|n| < 2 ^ 53`): it is rendered with a trailing `.0`, e.g.
`str(2000.0) == "2000.0"`. -/
def pyFloatStrInt (n : Int) : String :=
  toString n ++ ".0"

/-- Line 298 of views.py, `"{}m".format(float(d['num_cpus']) * 1000)`,
for inputs `num_cpus` whose milli-core value `num_cpus * 1000` is an
integer below `2 ^ 53` (e.g. every core count with at most three
fractional decimal digits that is exactly representable): for those the
Python float product is exact and integral, and `str` renders it via
`pyFloatStrInt`.  (On other inputs Python would print a non-integral
float; no claim in this development evaluates the function there, and
the `.num` projection below is only meaningful when
`(num_cpus * 1000).den = 1`.) -/
def cpuLimitStr (num_cpus : ℚ) : String :=
  pyFloatStrInt (num_cpus * 1000).num ++ "m"

/-- Modelled from the spec: `ModelRun.start` (in the absent
`api/models.py`) submits a job to the external backend, receives a job
handle, sets `job_id` and moves the run to `STARTED` (on the successful
submission path, the only one exercised by the view). -/
def ModelRun.start (r : ModelRun) (jid : String) : ModelRun :=
  { r with state := .STARTED, job_id := some jid }

/-- The payload of `POST /api/runs` as read by `ModelRunView.create`. -/
structure RunPayload where
  name : String
  num_cpus : ℚ
  num_workers : Nat
  max_bandwidth : Nat
deriving DecidableEq, Repr

/-- `ModelRunView.create` (views.py lines 278-313).  `newId` stands for
the database-assigned primary key, `now` for the creation timestamp and
`jid` for the job handle returned by the backend on submission.  The
view first counts the runs in state `STARTED` and answers `409 Conflict`
without touching the store when there is one; otherwise it builds the
run (state `CREATED`, `cpu_limit` from `cpuLimitStr`), starts it and
persists it, answering `201`. -/
def ModelRunView.create (s : Store) (d : RunPayload) (newId : Nat)
    (now : Int) (jid : String) : HttpStatus × Store :=
  let active_runs := s.runs.filter fun r => r.state == .STARTED
  if active_runs.length > 0 then
    (.HTTP_409_CONFLICT, s)
  else
    let cpu := cpuLimitStr d.num_cpus
    let run : ModelRun :=
      { id := newId, name := d.name, state := .CREATED,
        num_workers := d.num_workers, cpu_limit := cpu,
        network_bandwidth_limit := d.max_bandwidth, job_id := none,
        created_at := now, finished_at := none }
    let run := run.start jid
    (.HTTP_201_CREATED, { s with runs := s.runs ++ [run] })

/-- Modelled from the spec: deleting a run (`run.delete()` in the absent
`api/models.py`) cascades to the run's pods and to the metrics owned by
the run or by those pods. -/
def Store.deleteRunCascade (s : Store) (rid : Nat) : Store :=
  let deadPods := s.pods.filter fun p => p.model_run == rid
  { pods := s.pods.filter fun p => p.model_run != rid,
    runs := s.runs.filter fun r => r.id != rid,
    metrics := s.metrics.filter fun m =>
      m.model_run != some rid
        && !(deadPods.any fun p => m.pod == some p.name) }

/-- `ModelRunView.destroy` (views.py lines 315-332).
`ModelRun.objects.get(pk=pk)` raises `DoesNotExist` for an unknown id,
so the source's `if run is not None:` guard is unreachable and a missing
run propagates as an exception rather than producing a response; when
the run exists it is deleted (cascading) and `204` is returned. -/
def ModelRunView.destroy (s : Store) (pk : Nat) :
    Except Exn (HttpStatus × Store) :=
  match s.runGet pk with
  | none => .error .DoesNotExist
  | some run => .ok (.HTTP_204_NO_CONTENT, s.deleteRunCascade run.id)

/-! Concrete fixtures used to evaluate the embedded views on explicit
inputs. -/

/-- A store with no pods, runs or metrics. -/
def emptyStore : Store := { pods := [], runs := [], metrics := [] }

/-- A `loss` metric sample at time `t` with no owner set (owner is
irrelevant to the grouping-and-filtering operation). -/
def mLoss (t : Int) : KubeMetric :=
  { name := "loss", date := t, value := "v", metadata := "", cumulative := false }

/-- A pod named `p0` owned by run `1`. -/
def podA : KubePod := { name := "p0", model_run := 1 }

/-- A started run with id `1`. -/
def runB : ModelRun :=
  { id := 1, name := "r1", state := .STARTED, num_workers := 1,
    cpu_limit := "1000.0m", network_bandwidth_limit := 10,
    job_id := some "j1", created_at := 0, finished_at := none }

/-- A metric owned by pod `p0`. -/
def metricPod : KubeMetric :=
  { name := "a", date := 5, value := "1", metadata := "", cumulative := false,
    pod := some "p0" }

/-- A metric owned by run `1`. -/
def metricRun : KubeMetric :=
  { name := "b", date := 5, value := "2", metadata := "", cumulative := false,
    model_run := some 1 }

/-- A store holding run `1`, its pod `p0`, one metric owned by the pod
and one owned by the run. -/
def store3 : Store :=
  { pods := [podA], runs := [runB], metrics := [metricPod, metricRun] }

/-- An ingest payload carrying both `pod_name` and `run_id`. -/
def payloadBoth : MetricPayload :=
  { pod_name := some "p0", run_id := some 1, name := "loss", date := 3,
    value := "0.5", metadata := "", cumulative := false }

/-- An ingest payload carrying neither `pod_name` nor `run_id`. -/
def payloadNeither : MetricPayload :=
  { name := "loss", date := 3, value := "0.5", metadata := "",
    cumulative := false }

/-- An ingest payload carrying only a `run_id` that no run has. -/
def payloadRunOnly : MetricPayload :=
  { run_id := some 7, name := "loss", date := 3, value := "0.5",
    metadata := "", cumulative := false }

/-- An ingest payload carrying only a `pod_name` that no pod has. -/
def payloadPodOnly : MetricPayload :=
  { pod_name := some "nope", name := "loss", date := 3, value := "0.5",
    metadata := "", cumulative := false }

/-- The metric record stored by the pod branch for `payloadBoth`. -/
def storedBothMetric : KubeMetric :=
  { name := "loss", date := 3, value := "0.5", metadata := "",
    cumulative := false, pod := some "p0" }

/-- A run-creation payload asking for 2.0 cpu cores. -/
def runPayload2cpu : RunPayload :=
  { name := "r1", num_cpus := 2, num_workers := 1, max_bandwidth := 100 }

/-- A job lookup whose backend is unreachable (or does not know the
job): `Job.fetch` fails on every handle. -/
def failingFetch : Option String → Except Exn JobMeta :=
  fun _ => .error .JobFetchFailed

instance : IsTotal KubeMetric fun a b => a.date ≤ b.date :=
  ⟨fun a b => le_total a.date b.date⟩

instance : IsTrans KubeMetric fun a b => a.date ≤ b.date :=
  ⟨fun _ _ _ h1 h2 => le_trans h1 h2⟩

/-! Helper lemmas about `groupRuns` and `formatResult`, shared by the
claim theorems below. -/

/-- Every element of a group produced by `groupRuns` carries the group's
key as its name. -/
theorem groupRuns_name_eq (l : List KubeMetric) :
    ∀ p ∈ groupRuns l, ∀ m ∈ p.2, m.name = p.1 := by
  induction l with
  | nil => simp [groupRuns]
  | cons m ms ih =>
    intro p hp x hx
    cases hg : groupRuns ms with
    | nil =>
      simp only [groupRuns, hg, List.mem_singleton] at hp
      subst hp
      simp only [List.mem_singleton] at hx
      subst hx
      rfl
    | cons q rest =>
      obtain ⟨k, g⟩ := q
      simp only [groupRuns, hg] at hp
      by_cases hmk : (m.name == k) = true
      · rw [if_pos hmk] at hp
        rcases List.mem_cons.1 hp with rfl | hrest
        · rcases List.mem_cons.1 hx with rfl | hxg
          · exact eq_of_beq hmk
          · exact ih (k, g) (by rw [hg]; exact List.mem_cons_self ..) x hxg
        · exact ih p (by rw [hg]; exact List.mem_cons_of_mem _ hrest) x hx
      · rw [if_neg hmk] at hp
        rcases List.mem_cons.1 hp with rfl | hrest
        · simp only [List.mem_singleton] at hx
          subst hx
          rfl
        · exact ih p (by rw [hg]; exact hrest) x hx

/-- Every element of the input list lands in some group produced by
`groupRuns`. -/
theorem groupRuns_mem (x : KubeMetric) :
    ∀ l : List KubeMetric, x ∈ l → ∃ p ∈ groupRuns l, x ∈ p.2 := by
  intro l
  induction l with
  | nil => intro h; cases h
  | cons m ms ih =>
    intro hx
    rcases List.mem_cons.1 hx with rfl | hx'
    · cases hg : groupRuns ms with
      | nil =>
        simp only [groupRuns, hg]
        exact ⟨(x.name, [x]), List.mem_cons_self .., List.mem_cons_self ..⟩
      | cons q rest =>
        obtain ⟨k, g⟩ := q
        simp only [groupRuns, hg]
        by_cases hmk : (x.name == k) = true
        · rw [if_pos hmk]
          exact ⟨(k, x :: g), List.mem_cons_self .., List.mem_cons_self ..⟩
        · rw [if_neg hmk]
          exact ⟨(x.name, [x]), List.mem_cons_self .., List.mem_cons_self ..⟩
    · rcases ih hx' with ⟨p, hp, hxp⟩
      cases hg : groupRuns ms with
      | nil => rw [hg] at hp; cases hp
      | cons q rest =>
        obtain ⟨k, g⟩ := q
        simp only [groupRuns, hg]
        rw [hg] at hp
        by_cases hmk : (m.name == k) = true
        · rw [if_pos hmk]
          rcases List.mem_cons.1 hp with rfl | hrest
          · exact ⟨(k, m :: g), List.mem_cons_self .., List.mem_cons_of_mem m hxp⟩
          · exact ⟨p, List.mem_cons_of_mem _ hrest, hxp⟩
        · rw [if_neg hmk]
          exact ⟨p, List.mem_cons_of_mem _ hp, hxp⟩

/-- Claim C2, behaviour of the code at the failing input: on metrics
`loss` at dates 1,2,3,4 with no `since` and `until = 2`, the
grouping-and-filtering operation keeps exactly the entries with
`date > until` — it drops the dates 1 and 2 that lie inside the claimed
half-open window `since < date ≤ until` and keeps the dates 3 and 4
that lie outside it. -/
theorem claim_C2_until_filter_eval :
    formatResult [mLoss 1, mLoss 2, mLoss 3, mLoss 4] none (some 2)
      = [("loss", [mLoss 3, mLoss 4])] := by decide

/-- Claim C3, behaviour of the code at the failing input: exporting run
1 of `store3` yields an archive with `result.json` plus one file
`p0.json` for the run's only pod, but `p0.json` holds the run's own
grouped series (the metric named `b` owned by the run), while grouping
and filtering the pod's own metrics over the same window would have
produced the series of the metric named `a` owned by the pod. -/
theorem claim_C3_pod_file_eval :
    KubeMetricsView.retrieveZipRun store3 1 none
        = .ok [("result.json", [("b", [metricRun])]),
               ("p0.json", [("b", [metricRun])])]
      ∧ store3.podMetrics podA = [metricPod]
      ∧ formatResult (store3.podMetrics podA) (some runB.created_at)
          runB.finished_at = [("a", [metricPod])] := by decide

/-- Claim C4, counterexample: an ingest payload carrying both
`pod_name` and `run_id` (with the named pod present in the store) is
answered with `201 Created` and a stored metric record, not with
`BadRequest` and no record. -/
theorem claim_C4_counterexample :
    KubeMetricsView.create store3 payloadBoth
        = .ok (HttpStatus.HTTP_201_CREATED,
            { store3 with metrics := store3.metrics ++ [storedBothMetric] })
      ∧ HttpStatus.HTTP_201_CREATED ≠ HttpStatus.HTTP_400_BAD_REQUEST
      ∧ store3.metrics ++ [storedBothMetric] ≠ store3.metrics := by decide

/-- Claim C7, counterexample: retrieving run 1 of `store3` while the
job backend is unreachable (`Job.fetch` fails on every handle) does not
succeed — the failure propagates out of the view instead of producing a
response with an empty or partial job-metadata view. -/
theorem claim_C7_counterexample :
    ModelRunView.retrieve store3 failingFetch 1 = .error Exn.JobFetchFailed
      ∧ (ModelRunView.retrieve store3 failingFetch 1).toOption = none := by
  decide

/-- Claim C8, behaviour of the code at the failing input: ingesting
into an empty store, a payload naming an unknown pod is answered with
`404 Not Found` and no stored record, but a payload referencing an
unknown run makes `ModelRun.objects.get` raise `DoesNotExist`, which
escapes the view (the in-code 404 response for runs is dead code). -/
theorem claim_C8_owner_missing_eval :
    KubeMetricsView.create emptyStore payloadPodOnly
        = .ok (HttpStatus.HTTP_404_NOT_FOUND, emptyStore)
      ∧ KubeMetricsView.create emptyStore payloadRunOnly
        = .error Exn.DoesNotExist := by decide

/-- Claim C9, behaviour of the code at the failing input: deleting run
3 from an empty store makes `ModelRun.objects.get` raise `DoesNotExist`
(no `NotFound` response is produced), while deleting the existing run 1
of `store3` removes the run, its pod and both metrics (cascade) and
answers `204`. -/
theorem claim_C9_destroy_eval :
    ModelRunView.destroy emptyStore 3 = .error Exn.DoesNotExist
      ∧ ModelRunView.destroy store3 1
        = .ok (HttpStatus.HTTP_204_NO_CONTENT, emptyStore) := by decide

/-- Claim C6, counterexample: creating a run with `num_cpus = 2.0` on an
empty store stores `cpu_limit = "2000.0m"` (Python renders the float
`2000.0` with a trailing `.0`), which is not the claimed `"2000m"`. -/
theorem claim_C6_counterexample :
    (ModelRunView.create emptyStore runPayload2cpu 1 0 "j1").2.runs.map
        ModelRun.cpu_limit = ["2000.0m"]
      ∧ "2000.0m" ≠ ("2000m" : String) := by
  have hq : ((2 : ℚ) * 1000).num = 2000 := by norm_num
  refine ⟨?_, by decide⟩
  show [cpuLimitStr runPayload2cpu.num_cpus] = ["2000.0m"]
  rw [show runPayload2cpu.num_cpus = (2 : ℚ) from rfl]
  unfold cpuLimitStr pyFloatStrInt
  rw [hq]
  decide

/-- Claim C1: on a create-run request, if some run in the store is
STARTED the view answers `409 Conflict` and the store is returned
unchanged (nothing persisted, no record mutated); if no run is STARTED
the view persists exactly one new run, in state STARTED, and answers
`201 Created`. -/
theorem claim_C1_single_active_run (s : Store) (d : RunPayload)
    (newId : Nat) (now : Int) (jid : String) :
    ((∃ r ∈ s.runs, r.state = RunState.STARTED) →
      ModelRunView.create s d newId now jid = (HttpStatus.HTTP_409_CONFLICT, s))
    ∧ ((∀ r ∈ s.runs, r.state ≠ RunState.STARTED) →
      ∃ run, ModelRunView.create s d newId now jid
          = (HttpStatus.HTTP_201_CREATED, { s with runs := s.runs ++ [run] })
        ∧ run.state = RunState.STARTED) := by
  constructor
  · rintro ⟨r, hr, hst⟩
    have hmem : r ∈ s.runs.filter (fun r => r.state == RunState.STARTED) :=
      List.mem_filter.2 ⟨hr, by simp [hst]⟩
    have hpos : 0 < (s.runs.filter fun r => r.state == RunState.STARTED).length :=
      List.length_pos.2 (List.ne_nil_of_mem hmem)
    simp only [ModelRunView.create]
    rw [if_pos hpos]
  · intro h
    have hnil : s.runs.filter (fun r => r.state == RunState.STARTED) = [] :=
      List.filter_eq_nil_iff.2 fun r hr => by simpa using h r hr
    refine ⟨ModelRun.start
      { id := newId, name := d.name, state := .CREATED,
        num_workers := d.num_workers, cpu_limit := cpuLimitStr d.num_cpus,
        network_bandwidth_limit := d.max_bandwidth, job_id := none,
        created_at := now, finished_at := none } jid, ?_, rfl⟩
    simp only [ModelRunView.create, hnil]
    rw [if_neg (by decide)]

/-- Claim C1, witness: `store3` holds a STARTED run, so creation is
refused with 409 and the store is unchanged; on the empty store the
creation succeeds with 201 and a STARTED run. -/
theorem claim_C1_witness :
    ModelRunView.create store3 runPayload2cpu 5 0 "j2"
        = (HttpStatus.HTTP_409_CONFLICT, store3)
      ∧ ∃ run, ModelRunView.create emptyStore runPayload2cpu 5 0 "j2"
          = (HttpStatus.HTTP_201_CREATED,
              { emptyStore with runs := emptyStore.runs ++ [run] })
        ∧ run.state = RunState.STARTED :=
  ⟨(claim_C1_single_active_run store3 runPayload2cpu 5 0 "j2").1
      ⟨runB, by decide, rfl⟩,
   (claim_C1_single_active_run emptyStore runPayload2cpu 5 0 "j2").2
      (by intro r hr; cases hr)⟩

/-- Claim C4, amended: an ingest payload with neither `pod_name` nor
`run_id` is answered with `400 BadRequest` and nothing is stored; a
payload carrying both fields is handled by the pod branch exactly as if
`run_id` were absent (the pod branch takes precedence, no
`BadRequest`). -/
theorem claim_C4_owner_fields (s : Store) (d : MetricPayload) :
    (d.pod_name = none → d.run_id = none →
      KubeMetricsView.create s d = .ok (HttpStatus.HTTP_400_BAD_REQUEST, s))
    ∧ (∀ p, d.pod_name = some p →
      KubeMetricsView.create s d
        = KubeMetricsView.create s { d with run_id := none }) := by
  constructor
  · intro h1 h2
    simp [KubeMetricsView.create, h1, h2]
  · intro p hp
    simp [KubeMetricsView.create, hp]

/-- Claim C4, amended, witness: concrete payloads with no owner field
and with both owner fields. -/
theorem claim_C4_witness :
    KubeMetricsView.create store3 payloadNeither
        = .ok (HttpStatus.HTTP_400_BAD_REQUEST, store3)
      ∧ KubeMetricsView.create store3 payloadBoth
        = KubeMetricsView.create store3 { payloadBoth with run_id := none } :=
  ⟨(claim_C4_owner_fields store3 payloadNeither).1 rfl rfl,
   (claim_C4_owner_fields store3 payloadBoth).2 "p0" rfl⟩

/-- Claim C5: the grouping-and-filtering operation partitions the
metrics by exact name — every entry of a group carries the group's key
as its name, and every input metric passing the window filter appears
in the group keyed by its own name — and within every group the
retained entries are in non-decreasing date order, whatever the input
order. -/
theorem claim_C5_grouping_sorted (metrics : List KubeMetric)
    (since until' : Option Int) :
    (∀ p ∈ formatResult metrics since until',
        (∀ m ∈ p.2, m.name = p.1)
        ∧ p.2.Pairwise fun a b => a.date ≤ b.date)
    ∧ (∀ m ∈ metrics, keepEntry since until' m = true →
        ∃ p ∈ formatResult metrics since until', p.1 = m.name ∧ m ∈ p.2) := by
  constructor
  · intro p hp
    rcases List.mem_map.1 hp with ⟨g, hg, rfl⟩
    constructor
    · intro m hm
      have hm2 : m ∈ sortByDate g.2 := (List.mem_filter.1 hm).1
      have hm3 : m ∈ g.2 := (List.mem_insertionSort _).1 hm2
      exact groupRuns_name_eq (sortByName metrics) g hg m hm3
    · have hsorted : (sortByDate g.2).Pairwise fun a b => a.date ≤ b.date :=
        List.sorted_insertionSort _ g.2
      exact hsorted.filter _
  · intro m hm hkeep
    have hm1 : m ∈ sortByName metrics := (List.mem_insertionSort _).2 hm
    rcases groupRuns_mem m (sortByName metrics) hm1 with ⟨g, hg, hmg⟩
    refine ⟨(g.1, (sortByDate g.2).filter (keepEntry since until')),
      List.mem_map_of_mem _ hg,
      (groupRuns_name_eq (sortByName metrics) g hg m hmg).symm, ?_⟩
    exact List.mem_filter.2 ⟨(List.mem_insertionSort _).2 hmg, hkeep⟩

/-- Claim C5, witness: instantiation at a concrete out-of-order metric
list. -/
theorem claim_C5_witness :
    (∀ p ∈ formatResult [mLoss 2, mLoss 1] none none,
        (∀ m ∈ p.2, m.name = p.1)
        ∧ p.2.Pairwise fun a b => a.date ≤ b.date)
    ∧ (∀ m ∈ [mLoss 2, mLoss 1], keepEntry none none m = true →
        ∃ p ∈ formatResult [mLoss 2, mLoss 1] none none,
          p.1 = m.name ∧ m ∈ p.2) :=
  claim_C5_grouping_sorted [mLoss 2, mLoss 1] none none

/-- Claim C6, amended: on a store with no STARTED run, create persists
one run whose `cpu_limit` is the requested core count times 1000
rendered with Python's float formatting — the integral milli value
followed by `.0m` — so 2.0 cores is stored as `"2000.0m"`, not
`"2000m"`. -/
theorem claim_C6_cpu_limit (s : Store) (d : RunPayload) (newId : Nat)
    (now : Int) (jid : String)
    (hquiet : ∀ r ∈ s.runs, r.state ≠ RunState.STARTED)
    (hintegral : (d.num_cpus * 1000).den = 1) :
    (ModelRunView.create s d newId now jid).2.runs.map ModelRun.cpu_limit
      = s.runs.map ModelRun.cpu_limit
          ++ [toString (d.num_cpus * 1000).num ++ ".0m"] := by
  have hnil : s.runs.filter (fun r => r.state == RunState.STARTED) = [] :=
    List.filter_eq_nil_iff.2 fun r hr => by simpa using hquiet r hr
  simp only [ModelRunView.create, hnil]
  rw [if_neg (by decide)]
  have hdotm : (".0" ++ "m" : String) = ".0m" := by decide
  simp [cpuLimitStr, pyFloatStrInt, ModelRun.start, String.append_assoc, hdotm]

/-- Claim C6, amended, witness: at 2.0 requested cores on the empty
store. -/
theorem claim_C6_witness :
    (ModelRunView.create emptyStore runPayload2cpu 1 0 "j1").2.runs.map
        ModelRun.cpu_limit
      = emptyStore.runs.map ModelRun.cpu_limit
          ++ [toString (runPayload2cpu.num_cpus * 1000).num ++ ".0m"] :=
  claim_C6_cpu_limit emptyStore runPayload2cpu 1 0 "j1"
    (by intro r hr; cases hr) (by norm_num [runPayload2cpu])

/-- Claim C7, amended: the run-detail view succeeds only when the job
lookup succeeds — a failing `Job.fetch` propagates out of the view as
the same error (no response with empty or partial job metadata is
produced), and a successful lookup yields `200` with the run and its
job metadata. -/
theorem claim_C7_job_metadata (s : Store)
    (fetchJob : Option String → Except Exn JobMeta) (pk : Nat)
    (run : ModelRun) (hrun : s.runGet pk = some run) :
    (∀ e, fetchJob run.job_id = .error e →
      ModelRunView.retrieve s fetchJob pk = .error e)
    ∧ (∀ job, fetchJob run.job_id = .ok job →
      ModelRunView.retrieve s fetchJob pk
        = .ok (HttpStatus.HTTP_200_OK, run, job)) := by
  constructor <;> intro x hx <;> simp [ModelRunView.retrieve, hrun, hx]

/-- Claim C7, amended, witness: run 1 of `store3` with an unreachable
job backend. -/
theorem claim_C7_witness :
    ModelRunView.retrieve store3 failingFetch 1 = .error Exn.JobFetchFailed :=
  (claim_C7_job_metadata store3 failingFetch 1 runB rfl).1
    Exn.JobFetchFailed rfl

/-- Claim C10: an ingest payload carrying both `pod_name` and `run_id`
whose named pod exists stores the metric with that pod as its sole
owner — `model_run` is left unset, the `run_id` field is silently
ignored — and answers `201`. -/
theorem claim_C10_pod_precedence (s : Store) (d : MetricPayload)
    (pname : String) (pod : KubePod)
    (hp : d.pod_name = some pname) (hr : d.run_id.isSome = true)
    (hpod : s.podFilterFirst pname = some pod) :
    KubeMetricsView.create s d
      = .ok (HttpStatus.HTTP_201_CREATED,
          { s with metrics := s.metrics ++
              [{ name := d.name, date := d.date, value := d.value,
                 metadata := d.metadata, cumulative := d.cumulative,
                 pod := some pod.name, model_run := none }] }) := by
  simp [KubeMetricsView.create, hp, hpod]

/-- Claim C10, witness: the payload with both owner fields against
`store3`, whose pod `p0` exists. -/
theorem claim_C10_witness :
    KubeMetricsView.create store3 payloadBoth
      = .ok (HttpStatus.HTTP_201_CREATED,
          { store3 with metrics := store3.metrics ++ [storedBothMetric] }) :=
  claim_C10_pod_precedence store3 payloadBoth "p0" podA rfl rfl rfl
